import Mathlib

set_option autoImplicit false

/-!
Verification of the `sanic_jwt_extended` JWT manager
(`sanic_jwt_extended/jwt_manager.py`) against its natural-language
specification.  The application configuration is modelled as an association
list of option names to values, `app.config.setdefault` as an operation on
that list, the callback registry as a record of symbolic callback slots, the
exception-to-callback routing of `_set_exception_callbacks` as a total
function on rejection kinds, and token creation as pure functions over a
configuration and a record of callbacks.  Components of the repository that
are not part of the manager module (the token codec in `tokens.py`, the
configuration proxy in `config.py`, `utils.get_jwt_identity`) are modelled
from the specification where indicated.
-/

namespace SanicJWT

/-- Values stored in the Sanic application configuration mapping.  A Python
`datetime.timedelta` is represented by its total number of seconds, and the
Python `None` by `pyNone`. -/
inductive ConfigValue where
  | str (s : String)
  | strList (l : List String)
  | boolean (b : Bool)
  | pyNone
  | timedelta (seconds : Int)
deriving DecidableEq, Repr

/-- The Sanic `app.config` mapping, as an association list of option names to
values (first binding of a key wins). -/
def AppConfig : Type := List (String × ConfigValue)

/-- Lookup of an option name in the application configuration. -/
def lookupConfig : List (String × ConfigValue) → String → Option ConfigValue
  | [], _ => none
  | (k, v) :: rest, key => if k = key then some v else lookupConfig rest key

/-- Model of `app.config.setdefault(key, value)`: when the key is already
bound the configuration is unchanged, otherwise the key is bound to the given
default value. -/
def setdefault (cfg : List (String × ConfigValue)) (key : String)
    (v : ConfigValue) : List (String × ConfigValue) :=
  match lookupConfig cfg key with
  | some _ => cfg
  | none => cfg ++ [(key, v)]

/-- The sequence of `(key, default)` pairs passed to `app.config.setdefault`
by `JWTManager._set_default_configuration_options`, in source order
(jwt_manager.py lines 152-213). -/
def defaultConfigurationOptions : List (String × ConfigValue) :=
  [ ("JWT_TOKEN_LOCATION", ConfigValue.strList ["headers"]),
    ("JWT_HEADER_NAME", ConfigValue.str "Authorization"),
    ("JWT_HEADER_TYPE", ConfigValue.str "Bearer"),
    ("JWT_QUERY_STRING_NAME", ConfigValue.str "jwt"),
    ("JWT_ACCESS_COOKIE_NAME", ConfigValue.str "access_token_cookie"),
    ("JWT_REFRESH_COOKIE_NAME", ConfigValue.str "refresh_token_cookie"),
    ("JWT_ACCESS_COOKIE_PATH", ConfigValue.str "/"),
    ("JWT_REFRESH_COOKIE_PATH", ConfigValue.str "/"),
    ("JWT_COOKIE_SECURE", ConfigValue.boolean false),
    ("JWT_COOKIE_DOMAIN", ConfigValue.pyNone),
    ("JWT_SESSION_COOKIE", ConfigValue.boolean true),
    ("JWT_COOKIE_SAMESITE", ConfigValue.pyNone),
    ("JWT_JSON_KEY", ConfigValue.str "access_token"),
    ("JWT_REFRESH_JSON_KEY", ConfigValue.str "refresh_token"),
    ("JWT_COOKIE_CSRF_PROTECT", ConfigValue.boolean true),
    ("JWT_CSRF_METHODS", ConfigValue.strList ["POST", "PUT", "PATCH", "DELETE"]),
    ("JWT_ACCESS_CSRF_HEADER_NAME", ConfigValue.str "X-CSRF-TOKEN"),
    ("JWT_REFRESH_CSRF_HEADER_NAME", ConfigValue.str "X-CSRF-TOKEN"),
    ("JWT_CSRF_IN_COOKIES", ConfigValue.boolean true),
    ("JWT_ACCESS_CSRF_COOKIE_NAME", ConfigValue.str "csrf_access_token"),
    ("JWT_REFRESH_CSRF_COOKIE_NAME", ConfigValue.str "csrf_refresh_token"),
    ("JWT_ACCESS_CSRF_COOKIE_PATH", ConfigValue.str "/"),
    ("JWT_REFRESH_CSRF_COOKIE_PATH", ConfigValue.str "/"),
    ("JWT_ACCESS_TOKEN_EXPIRES", ConfigValue.timedelta 900),
    ("JWT_REFRESH_TOKEN_EXPIRES", ConfigValue.timedelta 2592000),
    ("JWT_ALGORITHM", ConfigValue.str "HS256"),
    ("JWT_SECRET_KEY", ConfigValue.pyNone),
    ("JWT_PRIVATE_KEY", ConfigValue.pyNone),
    ("JWT_PUBLIC_KEY", ConfigValue.pyNone),
    ("JWT_BLACKLIST_ENABLED", ConfigValue.boolean false),
    ("JWT_BLACKLIST_TOKEN_CHECKS", ConfigValue.strList ["access", "refresh"]),
    ("JWT_IDENTITY_CLAIM", ConfigValue.str "identity"),
    ("JWT_USER_CLAIMS", ConfigValue.str "user_claims"),
    ("JWT_CLAIMS_IN_REFRESH_TOKEN", ConfigValue.boolean false),
    ("JWT_ERROR_MESSAGE_KEY", ConfigValue.str "msg") ]

/-- `JWTManager._set_default_configuration_options(app)`: applies
`setdefault` for every pair of `defaultConfigurationOptions`, in order. -/
def set_default_configuration_options
    (cfg : List (String × ConfigValue)) : List (String × ConfigValue) :=
  defaultConfigurationOptions.foldl (fun c p => setdefault c p.1 p.2) cfg

/-- `JWTManager.init_app(app)` (jwt_manager.py lines 83-92) as it actually
executes: `_set_default_configuration_options` is declared `async` (line 147)
but invoked without `await` (line 91) from the synchronous `init_app`, so the
call only creates a coroutine object that is immediately discarded and the
`setdefault` body never runs; the configuration is left untouched.  (The
other call, `_set_exception_callbacks`, is synchronous and registers
exception handlers without touching the configuration.) -/
def init_app (cfg : List (String × ConfigValue)) : List (String × ConfigValue) :=
  cfg

theorem lookupConfig_append_of_some {cfg : List (String × ConfigValue)}
    {k : String} {v : ConfigValue} (l : List (String × ConfigValue))
    (h : lookupConfig cfg k = some v) : lookupConfig (cfg ++ l) k = some v := by
  induction cfg with
  | nil => simp [lookupConfig] at h
  | cons hd tl ih =>
      obtain ⟨k0, v0⟩ := hd
      by_cases hk : k0 = k
      · subst hk
        simp [lookupConfig] at h ⊢
        exact h
      · simp [lookupConfig, hk] at h ⊢
        exact ih h

theorem lookupConfig_append_of_none {cfg : List (String × ConfigValue)}
    {k : String} (l : List (String × ConfigValue))
    (h : lookupConfig cfg k = none) : lookupConfig (cfg ++ l) k = lookupConfig l k := by
  induction cfg with
  | nil => simp [lookupConfig]
  | cons hd tl ih =>
      obtain ⟨k0, v0⟩ := hd
      by_cases hk : k0 = k
      · subst hk
        simp [lookupConfig] at h
      · simp [lookupConfig, hk] at h ⊢
        exact ih h

theorem lookupConfig_setdefault_of_some {cfg : List (String × ConfigValue)}
    {k : String} {v : ConfigValue} (k2 : String) (d : ConfigValue)
    (h : lookupConfig cfg k = some v) :
    lookupConfig (setdefault cfg k2 d) k = some v := by
  unfold setdefault
  cases h2 : lookupConfig cfg k2 with
  | some w => exact h
  | none => exact lookupConfig_append_of_some _ h

theorem lookupConfig_setdefault_self_of_none {cfg : List (String × ConfigValue)}
    {k : String} (d : ConfigValue) (h : lookupConfig cfg k = none) :
    lookupConfig (setdefault cfg k d) k = some d := by
  unfold setdefault
  cases h2 : lookupConfig cfg k with
  | some w => rw [h] at h2; exact absurd h2 (by simp)
  | none =>
      rw [lookupConfig_append_of_none _ h]
      simp [lookupConfig]

theorem lookupConfig_setdefault_of_none_ne {cfg : List (String × ConfigValue)}
    {k k2 : String} (d : ConfigValue) (hne : k2 ≠ k)
    (h : lookupConfig cfg k = none) :
    lookupConfig (setdefault cfg k2 d) k = none := by
  unfold setdefault
  cases h2 : lookupConfig cfg k2 with
  | some w => exact h
  | none =>
      rw [lookupConfig_append_of_none _ h]
      simp [lookupConfig, hne]

theorem lookupConfig_foldl_setdefault_of_some
    (l : List (String × ConfigValue)) {k : String} {v : ConfigValue} :
    ∀ cfg : List (String × ConfigValue), lookupConfig cfg k = some v →
      lookupConfig (l.foldl (fun c p => setdefault c p.1 p.2) cfg) k = some v := by
  induction l with
  | nil => intro cfg h; exact h
  | cons hd tl ih =>
      intro cfg h
      exact ih _ (lookupConfig_setdefault_of_some hd.1 hd.2 h)

theorem lookupConfig_foldl_setdefault_of_mem
    (l : List (String × ConfigValue)) {k : String} {d : ConfigValue} :
    ∀ cfg : List (String × ConfigValue), (k, d) ∈ l →
      (l.map Prod.fst).Nodup → lookupConfig cfg k = none →
      lookupConfig (l.foldl (fun c p => setdefault c p.1 p.2) cfg) k = some d := by
  induction l with
  | nil => intro cfg hmem _ _; simp at hmem
  | cons hd tl ih =>
      intro cfg hmem hnd hnone
      simp only [List.map_cons, List.nodup_cons] at hnd
      rcases List.mem_cons.mp hmem with heq | htl
      · rw [← heq]
        exact lookupConfig_foldl_setdefault_of_some tl _
          (lookupConfig_setdefault_self_of_none d hnone)
      · have hk_mem : k ∈ tl.map Prod.fst := by
          exact List.mem_map.mpr ⟨(k, d), htl, rfl⟩
        have hne : hd.1 ≠ k := fun hc => hnd.1 (hc ▸ hk_mem)
        exact ih _ htl hnd.2 (lookupConfig_setdefault_of_none_ne hd.2 hne hnone)

theorem defaultConfigurationOptions_keys_nodup :
    (defaultConfigurationOptions.map Prod.fst).Nodup := by decide

/-- C3 (code bug): on an application that set no options, `init_app` returns
with none of the documented defaults in place — the `async` staticmethod
`_set_default_configuration_options` is invoked without `await`, so its body
never runs — even though that body, had it run, would have set exactly the
documented defaults (second half). -/
theorem init_app_sets_no_defaults :
    lookupConfig (init_app []) "JWT_TOKEN_LOCATION" = none ∧
    lookupConfig (init_app []) "JWT_ALGORITHM" = none ∧
    lookupConfig (init_app []) "JWT_ACCESS_TOKEN_EXPIRES" = none ∧
    lookupConfig (init_app []) "JWT_ERROR_MESSAGE_KEY" = none ∧
    lookupConfig (set_default_configuration_options []) "JWT_TOKEN_LOCATION" =
      some (ConfigValue.strList ["headers"]) ∧
    lookupConfig (set_default_configuration_options []) "JWT_ALGORITHM" =
      some (ConfigValue.str "HS256") ∧
    lookupConfig (set_default_configuration_options [])
        "JWT_ACCESS_TOKEN_EXPIRES" = some (ConfigValue.timedelta 900) ∧
    lookupConfig (set_default_configuration_options [])
        "JWT_ERROR_MESSAGE_KEY" = some (ConfigValue.str "msg") := by
  refine ⟨rfl, rfl, rfl, rfl, ?_, ?_, ?_, ?_⟩ <;> decide

/-- C10: any configuration option the application set before `init_app` keeps
its value — trivially for the actual `init_app`, which never touches the
configuration, and also for the intended default-setting step
`_set_default_configuration_options`, whose `setdefault` calls never
overwrite an existing binding. -/
theorem init_app_preserves_existing_options
    (cfg : List (String × ConfigValue)) (k : String) (v : ConfigValue)
    (h : lookupConfig cfg k = some v) :
    lookupConfig (init_app cfg) k = some v ∧
    lookupConfig (set_default_configuration_options cfg) k = some v :=
  ⟨h, lookupConfig_foldl_setdefault_of_some defaultConfigurationOptions cfg h⟩

/-- C10 witness: an application-supplied algorithm `RS256` survives both
`init_app` and the default-setting step, even though the default for that key
is `HS256`. -/
theorem init_app_preserves_existing_options_witness :
    lookupConfig (init_app [("JWT_ALGORITHM", ConfigValue.str "RS256")])
      "JWT_ALGORITHM" = some (ConfigValue.str "RS256") ∧
    lookupConfig
        (set_default_configuration_options
          [("JWT_ALGORITHM", ConfigValue.str "RS256")])
      "JWT_ALGORITHM" = some (ConfigValue.str "RS256") :=
  init_app_preserves_existing_options
    [("JWT_ALGORITHM", ConfigValue.str "RS256")] "JWT_ALGORITHM"
    (ConfigValue.str "RS256") rfl

/-- The exception classes for which `JWTManager._set_exception_callbacks`
registers an `app.exception` handler (jwt_manager.py lines 98-144). -/
inductive ExcKind where
  | noAuthorizationError
  | csrfError
  | expiredSignatureError
  | invalidHeaderError
  | invalidTokenError
  | jwtDecodeError
  | wrongTokenError
  | revokedTokenError
  | freshTokenRequired
  | userLoadError
  | userClaimsVerificationError
deriving DecidableEq, Repr, Fintype

/-- The callback slots of the `JWTManager` registry, one per
`_*_callback` attribute assigned in `JWTManager.__init__`. -/
inductive Hook where
  | user_claims_callback
  | user_identity_callback
  | expired_token_callback
  | invalid_token_callback
  | unauthorized_callback
  | needs_fresh_token_callback
  | revoked_token_callback
  | user_loader_callback
  | user_loader_error_callback
  | token_in_blacklist_callback
  | claims_verification_callback
  | verify_claims_failed_callback
  | decode_key_callback
  | encode_key_callback
deriving DecidableEq, Repr, Fintype

/-- The routing performed by `JWTManager._set_exception_callbacks`: each
registered exception handler awaits exactly one callback attribute of the
manager; this function records which one. -/
def exception_callback_hook : ExcKind → Hook
  | ExcKind.noAuthorizationError => Hook.unauthorized_callback
  | ExcKind.csrfError => Hook.unauthorized_callback
  | ExcKind.expiredSignatureError => Hook.expired_token_callback
  | ExcKind.invalidHeaderError => Hook.invalid_token_callback
  | ExcKind.invalidTokenError => Hook.invalid_token_callback
  | ExcKind.jwtDecodeError => Hook.invalid_token_callback
  | ExcKind.wrongTokenError => Hook.invalid_token_callback
  | ExcKind.revokedTokenError => Hook.revoked_token_callback
  | ExcKind.freshTokenRequired => Hook.needs_fresh_token_callback
  | ExcKind.userLoadError => Hook.user_loader_error_callback
  | ExcKind.userClaimsVerificationError => Hook.verify_claims_failed_callback

/-- C2 counterexample: the routing of `_set_exception_callbacks` is not
one-to-one — the distinct rejection kinds `NoAuthorizationError` and
`CSRFError` dispatch to the same callback entry (`_unauthorized_callback`). -/
theorem exception_routing_not_injective_cex :
    exception_callback_hook ExcKind.noAuthorizationError =
      exception_callback_hook ExcKind.csrfError ∧
    ExcKind.noAuthorizationError ≠ ExcKind.csrfError := by decide

/-- C2 (amended): every rejection kind handled by `_set_exception_callbacks`
dispatches to exactly one callback entry, but the mapping is not one-to-one:
`NoAuthorizationError` and `CSRFError` share the unauthorized callback, and
`InvalidHeaderError`, `InvalidTokenError`, `JWTDecodeError` and
`WrongTokenError` all share the invalid-token callback. -/
theorem exception_routing_total_but_not_injective :
    (∀ k : ExcKind, ∃! h : Hook, exception_callback_hook k = h) ∧
    ¬ Function.Injective exception_callback_hook ∧
    exception_callback_hook ExcKind.noAuthorizationError = Hook.unauthorized_callback ∧
    exception_callback_hook ExcKind.csrfError = Hook.unauthorized_callback ∧
    exception_callback_hook ExcKind.expiredSignatureError = Hook.expired_token_callback ∧
    exception_callback_hook ExcKind.invalidHeaderError = Hook.invalid_token_callback ∧
    exception_callback_hook ExcKind.invalidTokenError = Hook.invalid_token_callback ∧
    exception_callback_hook ExcKind.jwtDecodeError = Hook.invalid_token_callback ∧
    exception_callback_hook ExcKind.wrongTokenError = Hook.invalid_token_callback ∧
    exception_callback_hook ExcKind.revokedTokenError = Hook.revoked_token_callback ∧
    exception_callback_hook ExcKind.freshTokenRequired = Hook.needs_fresh_token_callback ∧
    exception_callback_hook ExcKind.userLoadError = Hook.user_loader_error_callback ∧
    exception_callback_hook ExcKind.userClaimsVerificationError =
      Hook.verify_claims_failed_callback :=
  ⟨fun k => ⟨exception_callback_hook k, rfl, fun _ hy => hy.symm⟩,
   by decide, rfl, rfl, rfl, rfl, rfl, rfl, rfl, rfl, rfl, rfl, rfl⟩

/-- The value held by one callback slot of the registry: the module-level
default function it is seeded with, the Python `None`, or a
caller-registered function (identified by an opaque tag). -/
inductive CallbackImpl where
  | defaultImpl (name : String)
  | unset
  | registered (tag : Nat)
deriving DecidableEq, Repr

/-- Whether a callback slot holds an implementation (Python: is not `None`). -/
def CallbackImpl.isImplemented : CallbackImpl → Bool
  | CallbackImpl.unset => false
  | _ => true

/-- The callback registry of `JWTManager`: one slot per `_*_callback`
attribute. -/
structure CallbackRegistry where
  user_claims_callback : CallbackImpl
  user_identity_callback : CallbackImpl
  expired_token_callback : CallbackImpl
  invalid_token_callback : CallbackImpl
  unauthorized_callback : CallbackImpl
  needs_fresh_token_callback : CallbackImpl
  revoked_token_callback : CallbackImpl
  user_loader_callback : CallbackImpl
  user_loader_error_callback : CallbackImpl
  token_in_blacklist_callback : CallbackImpl
  claims_verification_callback : CallbackImpl
  verify_claims_failed_callback : CallbackImpl
  decode_key_callback : CallbackImpl
  encode_key_callback : CallbackImpl
deriving DecidableEq, Repr

/-- The registry as seeded by `JWTManager.__init__` (jwt_manager.py lines
64-77): twelve slots get module-level defaults, while
`_user_loader_callback` and `_token_in_blacklist_callback` are assigned
`None`. -/
def initRegistry : CallbackRegistry where
  user_claims_callback := CallbackImpl.defaultImpl "default_user_claims_callback"
  user_identity_callback := CallbackImpl.defaultImpl "default_user_identity_callback"
  expired_token_callback := CallbackImpl.defaultImpl "default_expired_token_callback"
  invalid_token_callback := CallbackImpl.defaultImpl "default_invalid_token_callback"
  unauthorized_callback := CallbackImpl.defaultImpl "default_unauthorized_callback"
  needs_fresh_token_callback := CallbackImpl.defaultImpl "default_needs_fresh_token_callback"
  revoked_token_callback := CallbackImpl.defaultImpl "default_revoked_token_callback"
  user_loader_callback := CallbackImpl.unset
  user_loader_error_callback := CallbackImpl.defaultImpl "default_user_loader_error_callback"
  token_in_blacklist_callback := CallbackImpl.unset
  claims_verification_callback := CallbackImpl.defaultImpl "default_claims_verification_callback"
  verify_claims_failed_callback := CallbackImpl.defaultImpl "default_verify_claims_failed_callback"
  decode_key_callback := CallbackImpl.defaultImpl "default_decode_key_callback"
  encode_key_callback := CallbackImpl.defaultImpl "default_encode_key_callback"

/-- `JWTManager.user_loader_callback_loader`: registers a user-loader
callback, replacing the slot's previous value. -/
def user_loader_callback_loader (r : CallbackRegistry) (c : CallbackImpl) :
    CallbackRegistry :=
  { r with user_loader_callback := c }

/-- `JWTManager.token_in_blacklist_loader`: registers a blacklist predicate,
replacing the slot's previous value. -/
def token_in_blacklist_loader (r : CallbackRegistry) (c : CallbackImpl) :
    CallbackRegistry :=
  { r with token_in_blacklist_callback := c }

/-- `JWTManager.user_claims_loader`: registers a user-claims callback,
replacing the slot's previous value. -/
def user_claims_loader (r : CallbackRegistry) (c : CallbackImpl) :
    CallbackRegistry :=
  { r with user_claims_callback := c }

/-- C4 counterexample: construction does not seed every hook with a default
implementation — `_user_loader_callback` and `_token_in_blacklist_callback`
are left `None` by `JWTManager.__init__`. -/
theorem init_registry_leaves_hooks_unset_cex :
    initRegistry.user_loader_callback.isImplemented = false ∧
    initRegistry.token_in_blacklist_callback.isImplemented = false := by decide

/-- C4 (amended): construction seeds twelve of the fourteen hooks with their
default implementations, while the user-loader and token-in-blacklist hooks
are assigned `None` (no implementation); every registration through a loader
method replaces the slot's previous value, so exactly one value is active at
a time and the last registration wins. -/
theorem registry_seeding_and_last_registration_wins :
    initRegistry.user_claims_callback =
      CallbackImpl.defaultImpl "default_user_claims_callback" ∧
    initRegistry.user_identity_callback =
      CallbackImpl.defaultImpl "default_user_identity_callback" ∧
    initRegistry.expired_token_callback =
      CallbackImpl.defaultImpl "default_expired_token_callback" ∧
    initRegistry.invalid_token_callback =
      CallbackImpl.defaultImpl "default_invalid_token_callback" ∧
    initRegistry.unauthorized_callback =
      CallbackImpl.defaultImpl "default_unauthorized_callback" ∧
    initRegistry.needs_fresh_token_callback =
      CallbackImpl.defaultImpl "default_needs_fresh_token_callback" ∧
    initRegistry.revoked_token_callback =
      CallbackImpl.defaultImpl "default_revoked_token_callback" ∧
    initRegistry.user_loader_error_callback =
      CallbackImpl.defaultImpl "default_user_loader_error_callback" ∧
    initRegistry.claims_verification_callback =
      CallbackImpl.defaultImpl "default_claims_verification_callback" ∧
    initRegistry.verify_claims_failed_callback =
      CallbackImpl.defaultImpl "default_verify_claims_failed_callback" ∧
    initRegistry.decode_key_callback =
      CallbackImpl.defaultImpl "default_decode_key_callback" ∧
    initRegistry.encode_key_callback =
      CallbackImpl.defaultImpl "default_encode_key_callback" ∧
    initRegistry.user_loader_callback = CallbackImpl.unset ∧
    initRegistry.token_in_blacklist_callback = CallbackImpl.unset ∧
    (∀ (r : CallbackRegistry) (c₁ c₂ : CallbackImpl),
      token_in_blacklist_loader (token_in_blacklist_loader r c₁) c₂ =
        token_in_blacklist_loader r c₂ ∧
      user_loader_callback_loader (user_loader_callback_loader r c₁) c₂ =
        user_loader_callback_loader r c₂ ∧
      user_claims_loader (user_claims_loader r c₁) c₂ = user_claims_loader r c₂ ∧
      (token_in_blacklist_loader r c₁).token_in_blacklist_callback = c₁ ∧
      (user_loader_callback_loader r c₁).user_loader_callback = c₁ ∧
      (user_claims_loader r c₁).user_claims_callback = c₁) :=
  ⟨rfl, rfl, rfl, rfl, rfl, rfl, rfl, rfl, rfl, rfl, rfl, rfl, rfl, rfl,
   fun _ _ _ => ⟨rfl, rfl, rfl, rfl, rfl, rfl⟩⟩

/-- Modelled from the spec: the per-process configuration object of
`config.py` is not under src/; its fields follow the options of spec §6 that
the manager reads (`config.refresh_expires`, `config.access_expires`,
`config.user_claims_in_refresh_token`, `config.algorithm`,
`config.csrf_protect`, `config.identity_claim_key`,
`config.user_claims_key`).  Lifetimes are in seconds. -/
structure Config where
  token_location : List String
  cookie_csrf_protect : Bool
  access_expires : Int
  refresh_expires : Int
  algorithm : String
  identity_claim_key : String
  user_claims_key : String
  user_claims_in_refresh_token : Bool
deriving DecidableEq, Repr

/-- Modelled from the spec: `config.csrf_protect` of `config.py` is not under
src/; per spec §4.2 CSRF evaluation pairs with cookie transport, so CSRF
protection is enabled exactly when cookies are a configured token location
and the CSRF toggle is on. -/
def Config.csrf_protect (c : Config) : Bool :=
  c.token_location.contains "cookies" && c.cookie_csrf_protect

/-- Token type claim, `access` or `refresh` (spec §3). -/
inductive TokenType where
  | access
  | refresh
deriving DecidableEq, Repr

/-- The token payload of spec §3: identity, token type, fresh flag, issue and
expiry instants, optional CSRF value, optional custom claims.  `α` is the
identity type, `β` the custom-claims type. -/
structure Token (α β : Type) where
  identity : α
  token_type : TokenType
  fresh : Bool
  iat : Int
  exp : Int
  csrf_value : Option String
  user_claims : Option β
deriving DecidableEq, Repr

/-- A signed token string: the payload together with the key that signed it.
The cryptographic primitive is opaque (spec §1), so signature verification is
modelled as comparison of the resolved verification key with the signing
key. -/
structure SignedToken (α β : Type) where
  payload : Token α β
  signing_key : String
deriving DecidableEq, Repr

/-- Modelled from the spec: `encode_access_token` of `tokens.py` is not under
src/.  Per spec §3 and §4.1 it builds an access-token payload carrying the
identity, `token_type = access`, the given fresh flag, issue/expiry instants,
the custom claims, and a CSRF value exactly when CSRF is enabled (the random
CSRF nonce is passed as an opaque argument), and signs it with the given
secret. -/
def encode_access_token {α β : Type} (identity : α) (secret : String)
    (now expires_delta : Int) (fresh : Bool) (user_claims : β) (csrf : Bool)
    (csrf_nonce : String) : SignedToken α β :=
  { payload :=
      { identity := identity
        token_type := TokenType.access
        fresh := fresh
        iat := now
        exp := now + expires_delta
        csrf_value := if csrf then some csrf_nonce else none
        user_claims := some user_claims }
    signing_key := secret }

/-- Modelled from the spec: `encode_refresh_token` of `tokens.py` is not
under src/.  Its call in `_create_refresh_token` passes no fresh flag, and
per the invariant of spec §3 refresh tokens never carry `fresh = true`, so
the payload has `token_type = refresh` and `fresh = false`; custom claims are
embedded only when the caller passes them. -/
def encode_refresh_token {α β : Type} (identity : α) (secret : String)
    (now expires_delta : Int) (user_claims : Option β) (csrf : Bool)
    (csrf_nonce : String) : SignedToken α β :=
  { payload :=
      { identity := identity
        token_type := TokenType.refresh
        fresh := false
        iat := now
        exp := now + expires_delta
        csrf_value := if csrf then some csrf_nonce else none
        user_claims := user_claims }
    signing_key := secret }

/-- Possible failures of token decoding (spec §4.1): expiry is
distinguishable from a bad signature. -/
inductive DecodeError where
  | expiredSignature
  | invalidSignature
deriving DecidableEq, Repr

/-- Modelled from the spec: the decode side of the token codec (`tokens.py`,
not under src/).  Per spec §4.1 the verification key is obtained by invoking
the decode-key callback on the unverified claims; a key mismatch fails as an
invalid signature, a valid signature with an expired timestamp fails with the
distinct expiry error, and otherwise the payload is returned. -/
def decode_jwt {α β : Type} (tok : SignedToken α β)
    (decode_key : Token α β → String) (now : Int) :
    Except DecodeError (Token α β) :=
  if decode_key tok.payload ≠ tok.signing_key then
    Except.error DecodeError.invalidSignature
  else if tok.payload.exp ≤ now then
    Except.error DecodeError.expiredSignature
  else
    Except.ok tok.payload

/-- The functional callbacks of the manager that token creation and decoding
consult: custom-claims mapping, identity mapping, encode-key resolution on
the identity, decode-key resolution on the unverified claims. -/
structure Callbacks (α β : Type) where
  user_claims_callback : α → β
  user_identity_callback : α → α
  encode_key_callback : α → String
  decode_key_callback : Token α β → String

/-- `JWTManager._create_access_token` (jwt_manager.py lines 454-470): the
expiry delta defaults to `config.access_expires`, the identity is mapped by
the identity callback, the signing key comes from the encode-key callback
applied to the identity, the custom claims from the user-claims callback
applied to the identity, and the CSRF toggle is `config.csrf_protect`. -/
def _create_access_token {α β : Type} (cfg : Config) (m : Callbacks α β)
    (identity : α) (fresh : Bool) (expires_delta : Option Int) (now : Int)
    (csrf_nonce : String) : SignedToken α β :=
  let delta := expires_delta.getD cfg.access_expires
  encode_access_token (m.user_identity_callback identity)
    (m.encode_key_callback identity) now delta fresh
    (m.user_claims_callback identity) cfg.csrf_protect csrf_nonce

/-- `JWTManager._create_refresh_token` (jwt_manager.py lines 432-452): the
expiry delta defaults to `config.refresh_expires`; the user-claims callback
is consulted only when `config.user_claims_in_refresh_token` is set,
otherwise `user_claims` is `None`. -/
def _create_refresh_token {α β : Type} (cfg : Config) (m : Callbacks α β)
    (identity : α) (expires_delta : Option Int) (now : Int)
    (csrf_nonce : String) : SignedToken α β :=
  let delta := expires_delta.getD cfg.refresh_expires
  let user_claims : Option β :=
    if cfg.user_claims_in_refresh_token then
      some (m.user_claims_callback identity)
    else
      none
  encode_refresh_token (m.user_identity_callback identity)
    (m.encode_key_callback identity) now delta user_claims cfg.csrf_protect
    csrf_nonce

/-- A sample configuration used by the concrete witnesses: header transport,
the documented default lifetimes and claim keys, custom claims not embedded
in refresh tokens. -/
def sampleConfig : Config where
  token_location := ["headers"]
  cookie_csrf_protect := true
  access_expires := 900
  refresh_expires := 2592000
  algorithm := "HS256"
  identity_claim_key := "identity"
  user_claims_key := "user_claims"
  user_claims_in_refresh_token := false

/-- `sampleConfig` with custom claims embedded in refresh tokens. -/
def sampleConfigClaimsInRefresh : Config :=
  { sampleConfig with user_claims_in_refresh_token := true }

/-- Sample callbacks used by the concrete witnesses: the identity mapping is
the identity function and both key callbacks resolve to one fixed secret,
matching the default callbacks with a configured symmetric secret key. -/
def sampleCallbacks : Callbacks String String where
  user_claims_callback := fun _ => "role-admin"
  user_identity_callback := fun i => i
  encode_key_callback := fun _ => "secret"
  decode_key_callback := fun _ => "secret"

/-- A sample signed token used by the concrete witnesses. -/
def sampleToken : SignedToken String String where
  payload :=
    { identity := "u1"
      token_type := TokenType.access
      fresh := false
      iat := 0
      exp := 900
      csrf_value := none
      user_claims := some "role-admin" }
  signing_key := "secret"

/-- C1: decoding a token produced through `_create_access_token` or
`_create_refresh_token` yields back the same identity and the same custom
claims (the value of the user-claims callback at the identity), with the
token type and the fresh flag preserved — whenever the identity callback
fixes the identity, the decode-key callback resolves to the encode key of
that identity (as the default callbacks with one secret do), and decoding
happens before expiry; the refresh-token half assumes custom claims are
configured to be embedded. -/
theorem create_token_decode_round_trip {α β : Type} (cfg : Config)
    (m : Callbacks α β) (identity : α) (fresh : Bool) (now t : Int)
    (nonce : String)
    (hid : m.user_identity_callback identity = identity)
    (hkey : ∀ p : Token α β,
      m.decode_key_callback p = m.encode_key_callback identity)
    (hta : t < now + cfg.access_expires)
    (htr : t < now + cfg.refresh_expires) :
    decode_jwt (_create_access_token cfg m identity fresh none now nonce)
        m.decode_key_callback t =
      Except.ok
        { identity := identity
          token_type := TokenType.access
          fresh := fresh
          iat := now
          exp := now + cfg.access_expires
          csrf_value := if cfg.csrf_protect then some nonce else none
          user_claims := some (m.user_claims_callback identity) } ∧
    (cfg.user_claims_in_refresh_token = true →
      decode_jwt (_create_refresh_token cfg m identity none now nonce)
          m.decode_key_callback t =
        Except.ok
          { identity := identity
            token_type := TokenType.refresh
            fresh := false
            iat := now
            exp := now + cfg.refresh_expires
            csrf_value := if cfg.csrf_protect then some nonce else none
            user_claims := some (m.user_claims_callback identity) }) := by
  have h1 : ¬ (now + cfg.access_expires ≤ t) := by omega
  have h2 : ¬ (now + cfg.refresh_expires ≤ t) := by omega
  constructor
  · simp [decode_jwt, _create_access_token, encode_access_token, hkey, hid, h1]
  · intro hflag
    simp [decode_jwt, _create_refresh_token, encode_refresh_token, hkey, hid,
      h2, hflag]

/-- C1 witness: with the sample configuration (claims embedded in refresh
tokens) and sample callbacks, both tokens issued for `u1` at time 0 decode at
time 10 to the issued identity, claims, token type and fresh flag. -/
theorem create_token_decode_round_trip_witness :
    decode_jwt
        (_create_access_token sampleConfigClaimsInRefresh sampleCallbacks
          "u1" true none 0 "n")
        sampleCallbacks.decode_key_callback 10 =
      Except.ok
        { identity := "u1"
          token_type := TokenType.access
          fresh := true
          iat := 0
          exp := 900
          csrf_value := none
          user_claims := some "role-admin" } ∧
    decode_jwt
        (_create_refresh_token sampleConfigClaimsInRefresh sampleCallbacks
          "u1" none 0 "n")
        sampleCallbacks.decode_key_callback 10 =
      Except.ok
        { identity := "u1"
          token_type := TokenType.refresh
          fresh := false
          iat := 0
          exp := 2592000
          csrf_value := none
          user_claims := some "role-admin" } := by
  have h := create_token_decode_round_trip sampleConfigClaimsInRefresh
    sampleCallbacks "u1" true 0 10 "n" rfl (fun _ => rfl)
    (by norm_num [sampleConfigClaimsInRefresh, sampleConfig])
    (by norm_num [sampleConfigClaimsInRefresh, sampleConfig])
  have h2 := h.2 rfl
  refine ⟨?_, ?_⟩
  · have h1 := h.1
    simpa [sampleConfigClaimsInRefresh, sampleConfig, sampleCallbacks,
      Config.csrf_protect] using h1
  · simpa [sampleConfigClaimsInRefresh, sampleConfig, sampleCallbacks,
      Config.csrf_protect] using h2

/-- C5: a token produced by `_create_refresh_token` never carries
`fresh = true` — its payload has the refresh token type and a false fresh
flag, for every identity and expiry delta. -/
theorem create_refresh_token_never_fresh {α β : Type} (cfg : Config)
    (m : Callbacks α β) (identity : α) (expires_delta : Option Int)
    (now : Int) (nonce : String) :
    (_create_refresh_token cfg m identity expires_delta now nonce).payload.fresh
        = false ∧
    (_create_refresh_token cfg m identity expires_delta now nonce).payload.token_type
        = TokenType.refresh :=
  ⟨rfl, rfl⟩

/-- C6: when `JWT_CLAIMS_IN_REFRESH_TOKEN` is false (its default) the refresh
token embeds no custom claims and its content does not depend on the
user-claims callback at all; when it is true, the registered user-claims
callback's result is embedded. -/
theorem create_refresh_token_user_claims {α β : Type} (cfg : Config)
    (m : Callbacks α β) (identity : α) (expires_delta : Option Int)
    (now : Int) (nonce : String) :
    (cfg.user_claims_in_refresh_token = false →
      (_create_refresh_token cfg m identity expires_delta now nonce).payload.user_claims
          = none ∧
      ∀ f : α → β,
        _create_refresh_token cfg { m with user_claims_callback := f }
            identity expires_delta now nonce =
          _create_refresh_token cfg m identity expires_delta now nonce) ∧
    (cfg.user_claims_in_refresh_token = true →
      (_create_refresh_token cfg m identity expires_delta now nonce).payload.user_claims
          = some (m.user_claims_callback identity)) := by
  constructor
  · intro hflag
    refine ⟨?_, fun f => ?_⟩ <;>
      simp [_create_refresh_token, encode_refresh_token, hflag]
  · intro hflag
    simp [_create_refresh_token, encode_refresh_token, hflag]

/-- C6 witness: under the default configuration the refresh token for `u1`
carries no custom claims, and with claims-in-refresh-token enabled it carries
the callback's value. -/
theorem create_refresh_token_user_claims_witness :
    (_create_refresh_token sampleConfig sampleCallbacks "u1" none 0 "n").payload.user_claims
        = none ∧
    (_create_refresh_token sampleConfigClaimsInRefresh sampleCallbacks "u1"
        none 0 "n").payload.user_claims = some "role-admin" :=
  ⟨((create_refresh_token_user_claims sampleConfig sampleCallbacks "u1" none
      0 "n").1 rfl).1,
   (create_refresh_token_user_claims sampleConfigClaimsInRefresh
      sampleCallbacks "u1" none 0 "n").2 rfl⟩

/-- C7: a token issued by `_create_access_token` or `_create_refresh_token`
carries a `csrf_value` exactly when CSRF protection is enabled for the
configured transport (`config.csrf_protect`); in particular, under a
configuration whose transport does not use cookies the token carries no
`csrf_value`. -/
theorem token_csrf_value_iff_csrf_protect {α β : Type} (cfg : Config)
    (m : Callbacks α β) (identity : α) (fresh : Bool)
    (expires_delta : Option Int) (now : Int) (nonce : String) :
    ((_create_access_token cfg m identity fresh expires_delta now
        nonce).payload.csrf_value.isSome = cfg.csrf_protect) ∧
    ((_create_refresh_token cfg m identity expires_delta now
        nonce).payload.csrf_value.isSome = cfg.csrf_protect) ∧
    (cfg.token_location.contains "cookies" = false →
      (_create_access_token cfg m identity fresh expires_delta now
          nonce).payload.csrf_value = none ∧
      (_create_refresh_token cfg m identity expires_delta now
          nonce).payload.csrf_value = none) := by
  refine ⟨?_, ?_, ?_⟩
  · cases h : cfg.csrf_protect <;>
      simp [_create_access_token, encode_access_token, h]
  · cases h : cfg.csrf_protect <;>
      simp [_create_refresh_token, encode_refresh_token, h]
  · intro hc
    have hp : cfg.csrf_protect = false := by
      unfold Config.csrf_protect
      rw [hc]
      rfl
    constructor <;>
      simp [_create_access_token, encode_access_token,
        _create_refresh_token, encode_refresh_token, hp]

/-- C7 witness: under the sample header-transport configuration, neither the
access nor the refresh token for `u1` carries a CSRF value. -/
theorem token_csrf_value_iff_csrf_protect_witness :
    (_create_access_token sampleConfig sampleCallbacks "u1" false none 0
        "n").payload.csrf_value = none ∧
    (_create_refresh_token sampleConfig sampleCallbacks "u1" none 0
        "n").payload.csrf_value = none :=
  (token_csrf_value_iff_csrf_protect sampleConfig sampleCallbacks "u1" false
    none 0 "n").2.2 rfl

/-- C9: token issuance signs with the key produced by the encode-key callback
applied to the identity, and decoding verifies against the key produced by
the decode-key callback applied to the token's unverified claims — a decode
fails with an invalid signature exactly when that resolved key differs from
the signing key, so distinct identities may resolve to distinct keys without
changing the codec. -/
theorem key_resolution_via_callbacks {α β : Type} (cfg : Config)
    (m : Callbacks α β) (identity : α) (fresh : Bool)
    (expires_delta : Option Int) (now t : Int) (nonce : String)
    (tok : SignedToken α β) (dk : Token α β → String) :
    ((_create_access_token cfg m identity fresh expires_delta now
        nonce).signing_key = m.encode_key_callback identity) ∧
    ((_create_refresh_token cfg m identity expires_delta now
        nonce).signing_key = m.encode_key_callback identity) ∧
    (decode_jwt tok dk t = Except.error DecodeError.invalidSignature ↔
      dk tok.payload ≠ tok.signing_key) := by
  refine ⟨rfl, rfl, ?_⟩
  unfold decode_jwt
  by_cases h : dk tok.payload = tok.signing_key
  · by_cases he : tok.payload.exp ≤ t <;> simp [h, he]
  · simp [h]

/-- C9 witness: the sample tokens for `u1` are signed with the key the
encode-key callback resolves for `u1`, and decoding the sample token with a
decode-key callback resolving a different key fails as an invalid
signature. -/
theorem key_resolution_via_callbacks_witness :
    (_create_access_token sampleConfig sampleCallbacks "u1" false none 0
        "n").signing_key = "secret" ∧
    (_create_refresh_token sampleConfig sampleCallbacks "u1" none 0
        "n").signing_key = "secret" ∧
    (decode_jwt sampleToken (fun _ => "other") 0 =
        Except.error DecodeError.invalidSignature ↔
      ("other" : String) ≠ "secret") :=
  key_resolution_via_callbacks sampleConfig sampleCallbacks "u1" false none
    0 0 "n" sampleToken (fun _ => "other")

/-- The request context at the point the `UserLoadError` handler runs: the
decoded token has already been saved on the request (spec §4.6). -/
structure RequestCtx (α β : Type) where
  jwt : Token α β

/-- Modelled from the spec: `utils.get_jwt_identity` is not under src/; per
spec §4.6 it returns the already-resolved identity of the token saved on the
request context. -/
def get_jwt_identity {α β : Type} (ctx : RequestCtx α β) : α :=
  ctx.jwt.identity

/-- The `UserLoadError` exception handler registered by
`_set_exception_callbacks` (jwt_manager.py lines 134-140): it reads the
already-resolved identity with `get_jwt_identity` and passes it to the
user-loader-error callback; `ρ` is the response type. -/
def handler_user_load_error {α β ρ : Type}
    (user_loader_error_callback : α → ρ) (ctx : RequestCtx α β) : ρ :=
  user_loader_error_callback (get_jwt_identity ctx)

/-- C8: whenever verification fails with `UserLoadError`, the failure handler
invokes the user-loader-error callback with the already-resolved identity of
the token whose user failed to load. -/
theorem user_load_error_reports_identity {α β ρ : Type} (cb : α → ρ)
    (ctx : RequestCtx α β) (i : α) (h : ctx.jwt.identity = i) :
    handler_user_load_error cb ctx = cb i := by
  simp [handler_user_load_error, get_jwt_identity, h]

/-- C8 witness: for a request carrying the sample token (identity `u1`), the
`UserLoadError` handler produces the callback's response for `u1`. -/
theorem user_load_error_reports_identity_witness :
    handler_user_load_error (fun i => i) { jwt := sampleToken.payload } = "u1" :=
  user_load_error_reports_identity (fun i => i) { jwt := sampleToken.payload }
    "u1" rfl

end SanicJWT
